import Mathlib

/-!
Verification of the NHS data-integration ETL pipeline (scripts/etl_pipeline.py).

The Transform and Load stages are embedded shallowly:

* `validate_chars` / `validate_nhs_number` embed `validate_nhs_number` — the
  Modulus-11 check on a 10-character identifier, with the Python `str()`
  coercion and the surrounding `try/except` modelled by `Option` (a digit
  parse failure anywhere yields `false`).
* Source rows (`PasRow`, `EhrRow`, `LimsRow`, `AptRow`) carry the columns the
  pipeline touches; parsed `pd.to_datetime` values are `Timestamp`s, which
  keep the time-of-day component exactly as the pandas datetimes do.
* `dim_patient`, `dim_date`, `dim_diagnosis` embed the three dimension
  builders; `fact_encounters`, `fact_lab_tests`, `fact_appointments` embed
  the fact builders, with the pandas left merge as `mergeLeftPatient`
  (per left row: all matching right rows, or a single row with a null key).
* `load_warehouse` embeds the DuckDB load phase as drop-then-create over a
  six-slot warehouse state.
-/

namespace NHSPipeline

/-! ### Identifier validator (etl_pipeline.py lines 47-66) -/

/-- Python `int(c)` on a single character: a value for `0`-`9`, failure
otherwise (the failure is what the `except` clause catches). -/
def pyDigit? (c : Char) : Option Nat :=
  if c.isDigit then some (c.toNat - 48) else none

/-- The digit loop of the validator: parse characters left to right, aborting on
the first non-digit, as the `for` loop with `int(nhs_no[i])` does. -/
def parseDigits : List Char → Option (List Nat)
  | [] => some []
  | c :: cs =>
    match pyDigit? c with
    | none => none
    | some d =>
      match parseDigits cs with
      | none => none
      | some ds => some (d :: ds)

/-- `total` accumulated by the loop `for i in range(9): total += int(nhs_no[i]) * (10 - i)`. -/
def weightedSum (ds : List Nat) : Nat :=
  (List.range 9).foldl (fun acc i => acc + ds.getD i 0 * (10 - i)) 0

/-- `validate_nhs_number` on an already-coerced string (list of characters).
Mirrors the source: length gate, weighted sum over the first nine digits,
`check = 11 - total % 11` with `11 ↦ 0`, `10 ↦ invalid`, then comparison
with the tenth digit; any `int()` failure is caught and yields `false`. -/
def validate_chars (cs : List Char) : Bool :=
  if cs.length = 10 then
    match parseDigits (cs.take 9) with
    | none => false
    | some ds =>
      let check0 := 11 - weightedSum ds % 11
      let check := if check0 = 11 then 0 else check0
      if check = 10 then false
      else
        match pyDigit? (cs.getD 9 ' ') with
        | none => false
        | some d => d == check
  else false

/-- The Python values the validator can receive (`str(nhs_no)` is applied
first, so any value is acceptable). -/
inductive PyVal where
  | str (s : List Char)
  | int (n : Int)
  | pyNone
  | pyNaN
  | bool (b : Bool)
deriving DecidableEq

/-- Python `str()` on the values above (`str(None) = "None"`,
`str(float("nan")) = "nan"`, integers in decimal). -/
def pyStrOf : PyVal → List Char
  | .str s => s
  | .int n => (toString n).data
  | .pyNone => "None".data
  | .pyNaN => "nan".data
  | .bool b => if b then "True".data else "False".data

/-- `validate_nhs_number(nhs_no)`: coerce with `str()`, then check. -/
def validate_nhs_number (v : PyVal) : Bool :=
  validate_chars (pyStrOf v)

/-- The character for digit `d`. -/
def digitChar (d : Nat) : Char := Char.ofNat (48 + d)

/-- The checksum total as the specification words it: digit at position `i`
times `(10 - i)`, summed over the first nine digits. -/
def checksum_total (ds : List Nat) : Nat :=
  ((List.range 9).map (fun i => ds.getD i 0 * (10 - i))).sum

/-! ### Parsed datetime values

`pd.to_datetime` turns the source date strings into full timestamps; the
time-of-day component is kept (nothing in the pipeline normalises it away),
so the model keeps it too. -/

/-- A parsed pandas datetime: calendar date plus seconds past midnight. -/
structure Timestamp where
  year : Nat
  month : Nat
  day : Nat
  tod : Nat
deriving DecidableEq

/-- `dt.strftime` with format %Y%m%d, cast to int: the 8-digit YYYYMMDD integer. -/
def dateKey (t : Timestamp) : Nat :=
  t.year * 10000 + t.month * 100 + t.day

/-- Comparison used by `sort_values` on the date column: datetimes compare
lexicographically by date then time-of-day. -/
def tsLE (a b : Timestamp) : Bool :=
  decide (a.year < b.year ∨ (a.year = b.year ∧ (a.month < b.month ∨ (a.month = b.month ∧
    (a.day < b.day ∨ (a.day = b.day ∧ a.tod ≤ b.tod))))))

/-- `dt.dayofweek` (Monday = 0), by the Zeller congruence on the date part. -/
def dayOfWeek (t : Timestamp) : Nat :=
  let mm := if t.month < 3 then t.month + 12 else t.month
  let yy := if t.month < 3 then t.year - 1 else t.year
  let k := yy % 100
  let j := yy / 100
  let h := (t.day + 13 * (mm + 1) / 5 + k + k / 4 + j / 4 + 5 * j) % 7
  (h + 5) % 7

/-! ### Source rows -/

/-- The demographic columns `dim_patient` projects from the PAS source
(etl_pipeline.py lines 95-98). -/
structure PasDemo where
  patient_id : String
  nhs_number : String
  title : String
  first_name : String
  last_name : String
  date_of_birth : String
  age : Nat
  gender : String
  ethnicity : String
  postcode : String
  city : String
deriving DecidableEq

/-- A PAS source row: the projected demographics plus any further columns
the projection drops. -/
structure PasRow where
  demo : PasDemo
  extra : List (String × String)
deriving DecidableEq

/-- A nested primary-diagnosis document from the EHR source. -/
structure Diagnosis where
  icd10_code : String
  description : String
deriving DecidableEq

/-- An EHR encounter row: the columns the pipeline touches, the nested
optional primary diagnosis, and the remaining dropped columns. -/
structure EhrRow where
  encounter_id : String
  nhs_number : String
  encounter_date : Timestamp
  encounter_type : String
  department : String
  primary_diagnosis : Option Diagnosis
  extra : List (String × String)
deriving DecidableEq

/-- A LIMS lab-result row (columns used by `fact_lab_tests`). -/
structure LimsRow where
  test_id : String
  nhs_number : String
  test_type : String
  test_component : String
  order_date : Timestamp
  result_value : String
  is_abnormal : String
  extra : List (String × String)
deriving DecidableEq

/-- An appointments row (columns used by `fact_appointments`). -/
structure AptRow where
  appointment_id : String
  nhs_number : String
  appointment_date : Timestamp
  appointment_type : String
  specialty : String
  attendance_status : String
  extra : List (String × String)
deriving DecidableEq

/-! ### Dimension builders (etl_pipeline.py lines 94-131) -/

/-- A `dim_patient` row: the projected demographics plus
`patient_key = range(1, len + 1)`. -/
structure DimPatientRow where
  demo : PasDemo
  patient_key : Nat
deriving DecidableEq

/-- `dim_patient`: project the demographic columns and assign
`patient_key` 1..N in source row order (lines 95-99). -/
def dim_patient (pas : List PasRow) : List DimPatientRow :=
  pas.enum.map (fun p => { demo := p.2.demo, patient_key := p.1 + 1 })

/-- pandas `.unique()`: first occurrence of each value, in encounter order. -/
def pdUniqueAux {α : Type} [DecidableEq α] (seen : List α) : List α → List α
  | [] => []
  | t :: ts => if t ∈ seen then pdUniqueAux seen ts else t :: pdUniqueAux (t :: seen) ts

/-- pandas `.unique()` on a column. -/
def pdUnique {α : Type} [DecidableEq α] (l : List α) : List α :=
  pdUniqueAux [] l

/-- A `dim_date` row (line 108-115): the datetime, its YYYYMMDD key and
derived calendar parts. -/
structure DimDateRow where
  date : Timestamp
  date_key : Nat
  year : Nat
  quarter : Nat
  month : Nat
  day : Nat
  day_of_week : Nat
deriving DecidableEq

/-- The calendar parts derived for one unique datetime value. -/
def mkDimDateRow (t : Timestamp) : DimDateRow :=
  { date := t, date_key := dateKey t, year := t.year, quarter := (t.month + 2) / 3,
    month := t.month, day := t.day, day_of_week := dayOfWeek t }

/-- Insert a row into a list sorted ascending by `date` (the timestamps are
pairwise distinct after `.unique()`, so any sort gives this result). -/
def insertByDate (a : DimDateRow) : List DimDateRow → List DimDateRow
  | [] => [a]
  | b :: bs => if tsLE b.date a.date then b :: insertByDate a bs else a :: b :: bs

/-- `sort_values` on the date column, ascending. -/
def sortByDate : List DimDateRow → List DimDateRow
  | [] => []
  | a :: rest => insertByDate a (sortByDate rest)

/-- `pd.concat` of the three parsed date columns (lines 103-107). -/
def all_dates (ehr : List EhrRow) (lims : List LimsRow) (apts : List AptRow) :
    List Timestamp :=
  ehr.map (fun r => r.encounter_date) ++ lims.map (fun r => r.order_date) ++
    apts.map (fun r => r.appointment_date)

/-- `dim_date` (lines 102-116): `.unique()` over the concatenated datetime
values, derive key and calendar parts, sort ascending by date. -/
def dim_date (ehr : List EhrRow) (lims : List LimsRow) (apts : List AptRow) :
    List DimDateRow :=
  sortByDate ((pdUnique (all_dates ehr lims apts)).map mkDimDateRow)

/-- A `dim_diagnosis` row (lines 119-130). -/
structure DimDiagnosisRow where
  icd10_code : String
  description : String
  diagnosis_key : Nat
deriving DecidableEq

/-- `dim_diagnosis` (lines 119-130): collect the nested primary diagnoses
that are present, `drop_duplicates()` on the (code, description) pair,
assign `diagnosis_key` 1..M. -/
def dim_diagnosis (ehr : List EhrRow) : List DimDiagnosisRow :=
  let pairs := ehr.filterMap (fun r => r.primary_diagnosis)
  (pdUnique pairs).enum.map
    (fun p => { icd10_code := p.2.icd10_code, description := p.2.description,
                diagnosis_key := p.1 + 1 })

/-! ### Fact builders (etl_pipeline.py lines 133-167) -/

/-- pandas `merge(dim_patient[[nhs_number, patient_key]], on=nhs_number,
how=left)`: each event row is paired with every dimension row sharing its
`nhs_number`; an event with no match is kept once with a null key. -/
def mergeLeftPatient {α : Type} (keyOf : α → String) (events : List α)
    (dim : List DimPatientRow) : List (α × Option Nat) :=
  events.flatMap (fun e =>
    match dim.filter (fun d => d.demo.nhs_number = keyOf e) with
    | [] => [(e, none)]
    | ms => ms.map (fun m => (e, some m.patient_key)))

/-- A `fact_encounters` row (lines 133-142). -/
structure FactEncounterRow where
  encounter_id : String
  nhs_number : String
  encounter_date : Timestamp
  encounter_type : String
  department : String
  patient_key : Option Nat
  date_key : Nat
deriving DecidableEq

/-- The fact row built from one encounter and its resolved patient key. -/
def mkFactEnc (e : EhrRow) (pk : Option Nat) : FactEncounterRow :=
  { encounter_id := e.encounter_id, nhs_number := e.nhs_number,
    encounter_date := e.encounter_date, encounter_type := e.encounter_type,
    department := e.department, patient_key := pk,
    date_key := dateKey e.encounter_date }

/-- `fact_encounters`: project, left-merge to `dim_patient` on
`nhs_number`, derive `date_key` from `encounter_date`. -/
def fact_encounters (ehr : List EhrRow) (dimP : List DimPatientRow) :
    List FactEncounterRow :=
  (mergeLeftPatient (fun r => r.nhs_number) ehr dimP).map (fun p => mkFactEnc p.1 p.2)

/-- A `fact_lab_tests` row (lines 145-154). -/
structure FactLabRow where
  test_id : String
  nhs_number : String
  test_type : String
  test_component : String
  order_date : Timestamp
  result_value : String
  is_abnormal : String
  patient_key : Option Nat
  date_key : Nat
deriving DecidableEq

/-- The fact row built from one lab result and its resolved patient key. -/
def mkFactLab (e : LimsRow) (pk : Option Nat) : FactLabRow :=
  { test_id := e.test_id, nhs_number := e.nhs_number, test_type := e.test_type,
    test_component := e.test_component, order_date := e.order_date,
    result_value := e.result_value, is_abnormal := e.is_abnormal,
    patient_key := pk, date_key := dateKey e.order_date }

/-- `fact_lab_tests`: project, left-merge to `dim_patient`, derive
`date_key` from `order_date`. -/
def fact_lab_tests (lims : List LimsRow) (dimP : List DimPatientRow) :
    List FactLabRow :=
  (mergeLeftPatient (fun r => r.nhs_number) lims dimP).map (fun p => mkFactLab p.1 p.2)

/-- A `fact_appointments` row (lines 157-166). -/
structure FactAptRow where
  appointment_id : String
  nhs_number : String
  appointment_date : Timestamp
  appointment_type : String
  specialty : String
  attendance_status : String
  patient_key : Option Nat
  date_key : Nat
deriving DecidableEq

/-- The fact row built from one appointment and its resolved patient key. -/
def mkFactApt (e : AptRow) (pk : Option Nat) : FactAptRow :=
  { appointment_id := e.appointment_id, nhs_number := e.nhs_number,
    appointment_date := e.appointment_date, appointment_type := e.appointment_type,
    specialty := e.specialty, attendance_status := e.attendance_status,
    patient_key := pk, date_key := dateKey e.appointment_date }

/-- `fact_appointments`: project, left-merge to `dim_patient`, derive
`date_key` from `appointment_date`. -/
def fact_appointments (apts : List AptRow) (dimP : List DimPatientRow) :
    List FactAptRow :=
  (mergeLeftPatient (fun r => r.nhs_number) apts dimP).map (fun p => mkFactApt p.1 p.2)

/-! ### Warehouse load phase (etl_pipeline.py lines 180-226) -/

/-- The six freshly built in-memory tables handed to the load phase. -/
structure WarehouseTables where
  dim_patient : List DimPatientRow
  dim_date : List DimDateRow
  dim_diagnosis : List DimDiagnosisRow
  fact_encounters : List FactEncounterRow
  fact_lab_tests : List FactLabRow
  fact_appointments : List FactAptRow
deriving DecidableEq

/-- The warehouse: six named table slots, each either absent or holding
the rows of a physical table. -/
structure WarehouseState where
  dim_patient : Option (List DimPatientRow)
  dim_date : Option (List DimDateRow)
  dim_diagnosis : Option (List DimDiagnosisRow)
  fact_encounters : Option (List FactEncounterRow)
  fact_lab_tests : Option (List FactLabRow)
  fact_appointments : Option (List FactAptRow)
deriving DecidableEq

/-- The load phase, step for step: for each table in source order,
`DROP TABLE IF EXISTS` then `CREATE TABLE ... AS SELECT` from the
in-memory table (lines 180-226, dimensions before facts). -/
def load_warehouse (t : WarehouseTables) (w : WarehouseState) : WarehouseState :=
  let w1 := { w with dim_patient := none }
  let w2 := { w1 with dim_patient := some t.dim_patient }
  let w3 := { w2 with dim_date := none }
  let w4 := { w3 with dim_date := some t.dim_date }
  let w5 := { w4 with dim_diagnosis := none }
  let w6 := { w5 with dim_diagnosis := some t.dim_diagnosis }
  let w7 := { w6 with fact_encounters := none }
  let w8 := { w7 with fact_encounters := some t.fact_encounters }
  let w9 := { w8 with fact_lab_tests := none }
  let w10 := { w9 with fact_lab_tests := some t.fact_lab_tests }
  let w11 := { w10 with fact_appointments := none }
  { w11 with fact_appointments := some t.fact_appointments }

/-! ### Concrete rows (used to evaluate the pipeline on failing inputs) -/

/-- An encounter on 2024-03-05 at 08:00:00, as the EHR generator emits
(`encounter_date` carries `%H:%M:%S`). -/
def encRow0800 : EhrRow :=
  { encounter_id := "ENC1", nhs_number := "9434765919",
    encounter_date := { year := 2024, month := 3, day := 5, tod := 28800 },
    encounter_type := "A+E", department := "Cardiology",
    primary_diagnosis := none, extra := [] }

/-- A second encounter on the same calendar date, 14:30:00. -/
def encRow1430 : EhrRow :=
  { encounter_id := "ENC2", nhs_number := "9434765919",
    encounter_date := { year := 2024, month := 3, day := 5, tod := 52200 },
    encounter_type := "Outpatient", department := "Oncology",
    primary_diagnosis := none, extra := [] }

/-- A concrete PAS patient row (valid identifier 9434765919). -/
def pasRowA : PasRow :=
  { demo := { patient_id := "P001", nhs_number := "9434765919", title := "Ms",
              first_name := "Ada", last_name := "Jones", date_of_birth := "1980-01-01",
              age := 44, gender := "F", ethnicity := "White British",
              postcode := "LS1 1AA", city := "Leeds" },
    extra := [] }

/-- An encounter whose identifier has no match in the patient source. -/
def encRowNoMatch : EhrRow :=
  { encounter_id := "ENC3", nhs_number := "1234567890",
    encounter_date := { year := 2024, month := 4, day := 1, tod := 3600 },
    encounter_type := "Inpatient", department := "Surgery",
    primary_diagnosis := some { icd10_code := "I10", description := "Hypertension" },
    extra := [] }

/-- A lab result whose identifier has no match in the patient source. -/
def limsRowNoMatch : LimsRow :=
  { test_id := "T001", nhs_number := "1234567890", test_type := "FBC",
    test_component := "Haemoglobin",
    order_date := { year := 2024, month := 4, day := 2, tod := 7200 },
    result_value := "13.5", is_abnormal := "False", extra := [] }

/-- An appointment whose identifier has no match in the patient source. -/
def aptRowNoMatch : AptRow :=
  { appointment_id := "A001", nhs_number := "1234567890",
    appointment_date := { year := 2024, month := 4, day := 3, tod := 0 },
    appointment_type := "Follow-up", specialty := "Cardiology",
    attendance_status := "Attended", extra := [] }

/-! ## Helper lemmas -/

theorem isDigit_of_pyDigit? {c : Char} {d : Nat} (h : pyDigit? c = some d) :
    c.isDigit := by
  by_cases hc : c.isDigit
  · exact hc
  · simp [pyDigit?, hc] at h

theorem pyDigit?_digitChar {d : Nat} (hd : d < 10) : pyDigit? (digitChar d) = some d := by
  interval_cases d <;> decide

theorem pyDigit?_eq_none {c : Char} (hc : ¬ c.isDigit) : pyDigit? c = none := by
  simp [pyDigit?, hc]

theorem parseDigits_isDigit {l : List Char} {ds : List Nat}
    (h : parseDigits l = some ds) : ∀ c ∈ l, c.isDigit := by
  induction l generalizing ds with
  | nil => simp
  | cons c cs ih =>
    intro x hx
    simp only [parseDigits] at h
    cases hp : pyDigit? c with
    | none => simp [hp] at h
    | some d =>
      simp only [hp] at h
      cases hq : parseDigits cs with
      | none => simp [hq] at h
      | some ds2 =>
        rcases List.mem_cons.mp hx with rfl | hx2
        · exact isDigit_of_pyDigit? hp
        · exact ih hq x hx2

theorem parseDigits_map_digitChar {l : List Nat} (h : ∀ d ∈ l, d < 10) :
    parseDigits (l.map digitChar) = some l := by
  induction l with
  | nil => rfl
  | cons d ds ih =>
    simp only [List.map_cons, parseDigits, pyDigit?_digitChar (h d (by simp)),
      ih (fun x hx => h x (by simp [hx]))]

/-! ## Claims about the identifier validator -/

/-- C3: every input that is not exactly 10 characters long or contains a
non-numeric character yields `false` (and, the exception path being modelled
by `Option`, no error escapes). -/
theorem validate_malformed_false (cs : List Char)
    (h : cs.length ≠ 10 ∨ cs.all Char.isDigit = false) :
    validate_chars cs = false := by
  by_cases hlen : cs.length = 10
  · rcases h with h | h
    · exact absurd hlen h
    · obtain ⟨c, hc, hcd⟩ := List.all_eq_false.mp h
      cases hp : parseDigits (cs.take 9) with
      | none => simp [validate_chars, hlen, hp]
      | some ds =>
        have h9 : ¬ (cs.getD 9 ' ').isDigit := by
          have hmem : c ∈ cs.take 9 ++ cs.drop 9 := by
            rw [List.take_append_drop]; exact hc
          rcases List.mem_append.mp hmem with h1 | h2
          · exact absurd (parseDigits_isDigit hp c h1) hcd
          · have h9lt : 9 < cs.length := by omega
            have hd9 : cs.drop 9 = [cs.getD 9 ' '] := by
              rw [List.drop_eq_getElem_cons h9lt]
              have hnil : cs.drop 10 = [] := List.drop_eq_nil_of_le (by omega)
              rw [hnil, List.getD_eq_getElem cs ' ' h9lt]
            rw [hd9] at h2
            simp only [List.mem_singleton] at h2
            rw [← h2]
            exact hcd
        have h9e : pyDigit? (cs.getD 9 ' ') = none := pyDigit?_eq_none h9
        rw [validate_chars, if_pos hlen, hp]
        simp only [h9e, ite_self]
  · simp [validate_chars, hlen]

/-- C3 witness: a 5-character input is rejected. -/
theorem validate_malformed_false_witness :
    ("94347".data.length ≠ 10 ∨ "94347".data.all Char.isDigit = false) ∧
    validate_chars "94347".data = false :=
  ⟨Or.inl (by decide), validate_malformed_false _ (Or.inl (by decide))⟩

/-- C2: on a string of ten digits, the validator returns `true` exactly when
the specification checksum accepts: with `check = 11 - (weighted sum mod 11)`,
`check = 11` demands tenth digit 0, `check = 10` is always invalid, and
otherwise the tenth digit must equal `check`. -/
theorem validate_checksum_iff (ds : List Nat) (h10 : ds.length = 10)
    (hlt : ds.all (fun d => decide (d < 10)) = true) :
    validate_chars (ds.map digitChar) = true ↔
      (if 11 - checksum_total ds % 11 = 11 then ds.getD 9 0 = 0
       else if 11 - checksum_total ds % 11 = 10 then False
       else ds.getD 9 0 = 11 - checksum_total ds % 11) := by
  rcases ds with _ | ⟨d0, ds⟩
  · simp only [List.length_nil] at h10; omega
  rcases ds with _ | ⟨d1, ds⟩
  · simp only [List.length_cons, List.length_nil] at h10; omega
  rcases ds with _ | ⟨d2, ds⟩
  · simp only [List.length_cons, List.length_nil] at h10; omega
  rcases ds with _ | ⟨d3, ds⟩
  · simp only [List.length_cons, List.length_nil] at h10; omega
  rcases ds with _ | ⟨d4, ds⟩
  · simp only [List.length_cons, List.length_nil] at h10; omega
  rcases ds with _ | ⟨d5, ds⟩
  · simp only [List.length_cons, List.length_nil] at h10; omega
  rcases ds with _ | ⟨d6, ds⟩
  · simp only [List.length_cons, List.length_nil] at h10; omega
  rcases ds with _ | ⟨d7, ds⟩
  · simp only [List.length_cons, List.length_nil] at h10; omega
  rcases ds with _ | ⟨d8, ds⟩
  · simp only [List.length_cons, List.length_nil] at h10; omega
  rcases ds with _ | ⟨d9, ds⟩
  · simp only [List.length_cons, List.length_nil] at h10; omega
  rcases ds with _ | ⟨d10, ds⟩
  case cons => simp only [List.length_cons, List.length_nil] at h10; omega
  have hb := List.all_eq_true.mp hlt
  have hb0 : d0 < 10 := of_decide_eq_true (hb d0 (by simp))
  have hb1 : d1 < 10 := of_decide_eq_true (hb d1 (by simp))
  have hb2 : d2 < 10 := of_decide_eq_true (hb d2 (by simp))
  have hb3 : d3 < 10 := of_decide_eq_true (hb d3 (by simp))
  have hb4 : d4 < 10 := of_decide_eq_true (hb d4 (by simp))
  have hb5 : d5 < 10 := of_decide_eq_true (hb d5 (by simp))
  have hb6 : d6 < 10 := of_decide_eq_true (hb d6 (by simp))
  have hb7 : d7 < 10 := of_decide_eq_true (hb d7 (by simp))
  have hb8 : d8 < 10 := of_decide_eq_true (hb d8 (by simp))
  have hb9 : d9 < 10 := of_decide_eq_true (hb d9 (by simp))
  have htake : ([d0,d1,d2,d3,d4,d5,d6,d7,d8,d9].map digitChar).take 9 =
      ([d0,d1,d2,d3,d4,d5,d6,d7,d8] : List Nat).map digitChar := by
    simp [List.take]
  have hparse : parseDigits (([d0,d1,d2,d3,d4,d5,d6,d7,d8] : List Nat).map digitChar) =
      some [d0,d1,d2,d3,d4,d5,d6,d7,d8] := by
    refine parseDigits_map_digitChar ?_
    intro x hx
    simp only [List.mem_cons, List.not_mem_nil, or_false] at hx
    rcases hx with rfl | rfl | rfl | rfl | rfl | rfl | rfl | rfl | rfl <;> assumption
  have hlen : ([d0,d1,d2,d3,d4,d5,d6,d7,d8,d9].map digitChar).length = 10 := by
    simp
  have hget : ([d0,d1,d2,d3,d4,d5,d6,d7,d8,d9].map digitChar).getD 9 ' ' =
      digitChar d9 := by
    simp [List.getD]
  have hrange : List.range 9 = [0,1,2,3,4,5,6,7,8] := rfl
  have htot : weightedSum [d0,d1,d2,d3,d4,d5,d6,d7,d8] =
      checksum_total [d0,d1,d2,d3,d4,d5,d6,d7,d8,d9] := by
    simp [weightedSum, checksum_total, hrange, List.getD]
    ring
  rw [validate_chars, if_pos hlen, htake, hparse]
  simp only [htot, hget, pyDigit?_digitChar hb9]
  have hd9 : ([d0,d1,d2,d3,d4,d5,d6,d7,d8,d9] : List Nat).getD 9 0 = d9 := by
    simp [List.getD]
  rw [hd9]
  by_cases h11 : 11 - checksum_total [d0,d1,d2,d3,d4,d5,d6,d7,d8,d9] % 11 = 11
  · simp [h11, beq_iff_eq]
  · by_cases h10c : 11 - checksum_total [d0,d1,d2,d3,d4,d5,d6,d7,d8,d9] % 11 = 10
    · simp [h11, h10c]
    · simp [h11, h10c, beq_iff_eq]

/-- C2 witness: the worked example 9434765919 from the specification. -/
theorem validate_checksum_iff_witness :
    ([9,4,3,4,7,6,5,9,1,9] : List Nat).length = 10 ∧
    ([9,4,3,4,7,6,5,9,1,9] : List Nat).all (fun d => decide (d < 10)) = true ∧
    (validate_chars (([9,4,3,4,7,6,5,9,1,9] : List Nat).map digitChar) = true ↔
      (if 11 - checksum_total [9,4,3,4,7,6,5,9,1,9] % 11 = 11 then
         ([9,4,3,4,7,6,5,9,1,9] : List Nat).getD 9 0 = 0
       else if 11 - checksum_total [9,4,3,4,7,6,5,9,1,9] % 11 = 10 then False
       else ([9,4,3,4,7,6,5,9,1,9] : List Nat).getD 9 0 =
         11 - checksum_total [9,4,3,4,7,6,5,9,1,9] % 11)) :=
  ⟨by decide, by decide, validate_checksum_iff _ (by decide) (by decide)⟩

/-- C10: the validator is total over arbitrary Python values — it always
returns a boolean, coerces with `str()` first so an integer validates
exactly as its decimal string, and `None` and `NaN` are simply invalid. -/
theorem validate_total_and_coercion :
    (∀ v : PyVal, validate_nhs_number v = true ∨ validate_nhs_number v = false) ∧
    (∀ n : Int, validate_nhs_number (PyVal.int n) =
      validate_nhs_number (PyVal.str (toString n).data)) ∧
    validate_nhs_number PyVal.pyNone = false ∧
    validate_nhs_number PyVal.pyNaN = false ∧
    validate_nhs_number (PyVal.bool true) = false ∧
    validate_nhs_number (PyVal.int 9434765919) = true ∧
    validate_nhs_number (PyVal.str "9434765919".data) = true := by
  refine ⟨fun v => ?_, fun n => rfl, by decide, by decide, by decide, by decide, by decide⟩
  cases h : validate_nhs_number v
  · exact Or.inr rfl
  · exact Or.inl rfl

/-! ## Helper lemmas about surrogate-key assignment -/

theorem enumFrom_map_key {α : Type} (n : Nat) (l : List α) :
    (List.enumFrom n l).map (fun p => p.1 + 1) = List.range' (n + 1) l.length := by
  induction l generalizing n with
  | nil => rfl
  | cons a t ih =>
    rw [List.enumFrom_cons, List.map_cons, List.length_cons, List.range'_succ, ih]

theorem enum_map_key {α : Type} (l : List α) :
    l.enum.map (fun p => p.1 + 1) = List.range' 1 l.length := by
  have h := enumFrom_map_key 0 l
  simpa [List.enum] using h

theorem dim_patient_map_demo (pas : List PasRow) :
    (dim_patient pas).map (fun r => r.demo) = pas.map (fun r => r.demo) := by
  unfold dim_patient
  rw [List.map_map]
  have h1 : ((fun r : DimPatientRow => r.demo) ∘
      (fun p : Nat × PasRow =>
        ({ demo := p.2.demo, patient_key := p.1 + 1 } : DimPatientRow))) =
      ((fun r : PasRow => r.demo) ∘ Prod.snd) := rfl
  rw [h1, ← List.map_map, List.enum_map_snd]

theorem dim_patient_map_key (pas : List PasRow) :
    (dim_patient pas).map (fun r => r.patient_key) = List.range' 1 pas.length := by
  unfold dim_patient
  rw [List.map_map]
  have h1 : ((fun r : DimPatientRow => r.patient_key) ∘
      (fun p : Nat × PasRow =>
        ({ demo := p.2.demo, patient_key := p.1 + 1 } : DimPatientRow))) =
      (fun p : Nat × PasRow => p.1 + 1) := rfl
  rw [h1, enum_map_key]

theorem dim_patient_map_nhs (pas : List PasRow) :
    (dim_patient pas).map (fun r => r.demo.nhs_number) =
      pas.map (fun r => r.demo.nhs_number) := by
  have h := congrArg (List.map (fun d : PasDemo => d.nhs_number)) (dim_patient_map_demo pas)
  simpa [List.map_map] using h

/-! ## Helper lemmas about the left merge -/

theorem filter_nhs_of_nodup {dim : List DimPatientRow}
    (hn : (dim.map (fun d => d.demo.nhs_number)).Nodup) (k : String) :
    dim.filter (fun d => d.demo.nhs_number = k) = [] ∨
      ∃ d, dim.filter (fun d => d.demo.nhs_number = k) = [d] := by
  induction dim with
  | nil => exact Or.inl rfl
  | cons d ds ih =>
    simp only [List.map_cons, List.nodup_cons] at hn
    obtain ⟨hd, hds⟩ := hn
    by_cases hk : d.demo.nhs_number = k
    · right
      refine ⟨d, ?_⟩
      rw [List.filter_cons_of_pos (by simpa using hk)]
      have hnil : ds.filter (fun x => x.demo.nhs_number = k) = [] := by
        rw [List.filter_eq_nil_iff]
        intro a ha hpa
        have hak : a.demo.nhs_number = k := of_decide_eq_true hpa
        exact hd (List.mem_map.mpr ⟨a, ha, by rw [hak, hk]⟩)
      rw [hnil]
    · rw [List.filter_cons_of_neg (by simpa using hk)]
      exact ih hds

theorem mergeLeftPatient_length {α : Type} (keyOf : α → String) (events : List α)
    (dim : List DimPatientRow)
    (hn : (dim.map (fun d => d.demo.nhs_number)).Nodup) :
    (mergeLeftPatient keyOf events dim).length = events.length := by
  induction events with
  | nil => rfl
  | cons e es ih =>
    rw [mergeLeftPatient, List.flatMap_cons, List.length_append]
    rw [mergeLeftPatient] at ih
    rw [ih, List.length_cons]
    rcases filter_nhs_of_nodup hn (keyOf e) with h | ⟨d, h⟩ <;> rw [h] <;> simp <;> omega

theorem mergeLeftPatient_unmatched {α : Type} (keyOf : α → String) (events : List α)
    (dim : List DimPatientRow) (e : α) (he : e ∈ events)
    (hk : keyOf e ∉ dim.map (fun d => d.demo.nhs_number)) :
    (e, (none : Option Nat)) ∈ mergeLeftPatient keyOf events dim := by
  have hfil : dim.filter (fun d => d.demo.nhs_number = keyOf e) = [] := by
    rw [List.filter_eq_nil_iff]
    intro a ha hpa
    exact hk (List.mem_map.mpr ⟨a, ha, of_decide_eq_true hpa⟩)
  rw [mergeLeftPatient, List.mem_flatMap]
  exact ⟨e, he, by rw [hfil]; exact List.mem_singleton.mpr rfl⟩

/-! ## Claims about the dimension and fact builders -/

/-- C7: the Patient Dimension keeps one row per source row with the
demographics unchanged, and its surrogate keys are exactly 1..N in source
row order — a bijection with row positions. -/
theorem dim_patient_bijection (pas : List PasRow) :
    (dim_patient pas).length = pas.length ∧
    (dim_patient pas).map (fun r => r.demo) = pas.map (fun r => r.demo) ∧
    (dim_patient pas).map (fun r => r.patient_key) = List.range' 1 pas.length :=
  ⟨by simp [dim_patient], dim_patient_map_demo pas, dim_patient_map_key pas⟩

/-- C1: when the patient source has pairwise-distinct `nhs_number`s, each
fact table has exactly one row per source event row, and an event whose
identifier is absent from the patient source keeps its row with a null
patient surrogate key. -/
theorem fact_row_counts (pas : List PasRow) (ehr : List EhrRow)
    (lims : List LimsRow) (apts : List AptRow)
    (hU : (pas.map (fun r => r.demo.nhs_number)).Nodup) :
    (fact_encounters ehr (dim_patient pas)).length = ehr.length ∧
    (fact_lab_tests lims (dim_patient pas)).length = lims.length ∧
    (fact_appointments apts (dim_patient pas)).length = apts.length ∧
    (∀ e ∈ ehr, e.nhs_number ∉ pas.map (fun r => r.demo.nhs_number) →
      mkFactEnc e none ∈ fact_encounters ehr (dim_patient pas)) ∧
    (∀ e ∈ lims, e.nhs_number ∉ pas.map (fun r => r.demo.nhs_number) →
      mkFactLab e none ∈ fact_lab_tests lims (dim_patient pas)) ∧
    (∀ e ∈ apts, e.nhs_number ∉ pas.map (fun r => r.demo.nhs_number) →
      mkFactApt e none ∈ fact_appointments apts (dim_patient pas)) := by
  have hn : ((dim_patient pas).map (fun d => d.demo.nhs_number)).Nodup := by
    rw [dim_patient_map_nhs]; exact hU
  refine ⟨?_, ?_, ?_, ?_, ?_, ?_⟩
  · rw [fact_encounters, List.length_map]
    exact mergeLeftPatient_length _ _ _ hn
  · rw [fact_lab_tests, List.length_map]
    exact mergeLeftPatient_length _ _ _ hn
  · rw [fact_appointments, List.length_map]
    exact mergeLeftPatient_length _ _ _ hn
  · intro e he hk
    have hk2 : e.nhs_number ∉ (dim_patient pas).map (fun d => d.demo.nhs_number) := by
      rw [dim_patient_map_nhs]; exact hk
    have hmem := mergeLeftPatient_unmatched (fun r : EhrRow => r.nhs_number)
      ehr (dim_patient pas) e he hk2
    exact List.mem_map.mpr ⟨(e, none), hmem, rfl⟩
  · intro e he hk
    have hk2 : e.nhs_number ∉ (dim_patient pas).map (fun d => d.demo.nhs_number) := by
      rw [dim_patient_map_nhs]; exact hk
    have hmem := mergeLeftPatient_unmatched (fun r : LimsRow => r.nhs_number)
      lims (dim_patient pas) e he hk2
    exact List.mem_map.mpr ⟨(e, none), hmem, rfl⟩
  · intro e he hk
    have hk2 : e.nhs_number ∉ (dim_patient pas).map (fun d => d.demo.nhs_number) := by
      rw [dim_patient_map_nhs]; exact hk
    have hmem := mergeLeftPatient_unmatched (fun r : AptRow => r.nhs_number)
      apts (dim_patient pas) e he hk2
    exact List.mem_map.mpr ⟨(e, none), hmem, rfl⟩

/-- C1 witness: one patient, one matching and one unmatched encounter, one
unmatched lab test and appointment. -/
theorem fact_row_counts_witness :
    ([pasRowA].map (fun r => r.demo.nhs_number)).Nodup ∧
    (fact_encounters [encRow0800, encRowNoMatch] (dim_patient [pasRowA])).length = 2 ∧
    (fact_lab_tests [limsRowNoMatch] (dim_patient [pasRowA])).length = 1 ∧
    (fact_appointments [aptRowNoMatch] (dim_patient [pasRowA])).length = 1 ∧
    mkFactEnc encRowNoMatch none ∈
      fact_encounters [encRow0800, encRowNoMatch] (dim_patient [pasRowA]) := by
  have h := fact_row_counts [pasRowA] [encRow0800, encRowNoMatch]
    [limsRowNoMatch] [aptRowNoMatch] (by decide)
  exact ⟨by decide, h.1, h.2.1, h.2.2.1, h.2.2.2.1 encRowNoMatch (by decide) (by decide)⟩

/-! ## Helper lemmas about deduplication and sorting -/

theorem mem_pdUniqueAux {α : Type} [DecidableEq α] (seen l : List α) (x : α) :
    x ∈ pdUniqueAux seen l ↔ x ∈ l ∧ x ∉ seen := by
  induction l generalizing seen with
  | nil => simp [pdUniqueAux]
  | cons t ts ih =>
    by_cases ht : t ∈ seen
    · rw [pdUniqueAux, if_pos ht, ih]
      constructor
      · rintro ⟨hx, hs⟩
        exact ⟨List.mem_cons_of_mem _ hx, hs⟩
      · rintro ⟨hx, hs⟩
        rcases List.mem_cons.mp hx with rfl | hx2
        · exact absurd ht hs
        · exact ⟨hx2, hs⟩
    · rw [pdUniqueAux, if_neg ht]
      constructor
      · intro hx
        rcases List.mem_cons.mp hx with rfl | hx2
        · exact ⟨List.mem_cons_self _ _, ht⟩
        · obtain ⟨h1, h2⟩ := (ih (t :: seen)).mp hx2
          exact ⟨List.mem_cons_of_mem _ h1,
            fun hxs => h2 (List.mem_cons_of_mem _ hxs)⟩
      · rintro ⟨hx, hs⟩
        rcases List.mem_cons.mp hx with rfl | hx2
        · exact List.mem_cons_self _ _
        · by_cases hxt : x = t
          · subst hxt; exact List.mem_cons_self _ _
          · refine List.mem_cons_of_mem _ ((ih (t :: seen)).mpr ⟨hx2, ?_⟩)
            intro hmem
            rcases List.mem_cons.mp hmem with h | h
            · exact hxt h
            · exact hs h

theorem mem_pdUnique {α : Type} [DecidableEq α] (l : List α) (x : α) :
    x ∈ pdUnique l ↔ x ∈ l := by
  rw [pdUnique, mem_pdUniqueAux]
  simp

theorem nodup_pdUniqueAux {α : Type} [DecidableEq α] (seen l : List α) :
    (pdUniqueAux seen l).Nodup := by
  induction l generalizing seen with
  | nil => simp [pdUniqueAux]
  | cons t ts ih =>
    by_cases ht : t ∈ seen
    · rw [pdUniqueAux, if_pos ht]; exact ih seen
    · rw [pdUniqueAux, if_neg ht]
      refine List.nodup_cons.mpr ⟨?_, ih (t :: seen)⟩
      intro hmem
      exact ((mem_pdUniqueAux (t :: seen) ts t).mp hmem).2 (List.mem_cons_self _ _)

theorem nodup_pdUnique {α : Type} [DecidableEq α] (l : List α) :
    (pdUnique l).Nodup :=
  nodup_pdUniqueAux [] l

theorem mem_insertByDate (a x : DimDateRow) (l : List DimDateRow) :
    x ∈ insertByDate a l ↔ x = a ∨ x ∈ l := by
  induction l with
  | nil => simp [insertByDate]
  | cons b bs ih =>
    rw [insertByDate]
    by_cases h : tsLE b.date a.date
    · rw [if_pos h]
      simp only [List.mem_cons, ih]
      tauto
    · rw [if_neg h]
      simp only [List.mem_cons]

theorem mem_sortByDate (x : DimDateRow) (l : List DimDateRow) :
    x ∈ sortByDate l ↔ x ∈ l := by
  induction l with
  | nil => simp [sortByDate]
  | cons a rest ih =>
    rw [sortByDate, mem_insertByDate, ih]
    simp [List.mem_cons]

theorem mem_map_dateKey_dim_date (ehr : List EhrRow) (lims : List LimsRow)
    (apts : List AptRow) (k : Nat) :
    k ∈ (dim_date ehr lims apts).map (fun r => r.date_key) ↔
      k ∈ (all_dates ehr lims apts).map dateKey := by
  constructor
  · intro hk
    obtain ⟨row, hrow, hkeq⟩ := List.mem_map.mp hk
    obtain ⟨t, ht, rfl⟩ := List.mem_map.mp ((mem_sortByDate _ _).mp hrow)
    exact List.mem_map.mpr ⟨t, (mem_pdUnique _ _).mp ht, hkeq⟩
  · intro hk
    obtain ⟨t, ht, rfl⟩ := List.mem_map.mp hk
    refine List.mem_map.mpr ⟨mkDimDateRow t, ?_, rfl⟩
    exact (mem_sortByDate _ _).mpr (List.mem_map.mpr ⟨t, (mem_pdUnique _ _).mpr ht, rfl⟩)

/-! ## Claims about the Date and Diagnosis Dimensions and the load phase -/

/-- C5: the set of `date_key` values of the Date Dimension is exactly the
set of YYYYMMDD integers derivable from the three event sources' date
columns — no extra keys, no missing keys. -/
theorem dim_date_keys_exactly_source_dates (ehr : List EhrRow) (lims : List LimsRow)
    (apts : List AptRow) (k : Nat) :
    k ∈ (dim_date ehr lims apts).map (fun r => r.date_key) ↔
      k ∈ ehr.map (fun r => dateKey r.encounter_date) ++
          lims.map (fun r => dateKey r.order_date) ++
          apts.map (fun r => dateKey r.appointment_date) := by
  rw [mem_map_dateKey_dim_date]
  unfold all_dates
  simp [List.map_append, List.map_map, Function.comp]

/-- C8: the Diagnosis Dimension has no duplicate (code, description) pair,
encounters without a primary diagnosis contribute no row, and surrogate
keys are dense 1..M. -/
theorem dim_diagnosis_spec (ehr : List EhrRow) :
    ((dim_diagnosis ehr).map (fun r => (r.icd10_code, r.description))).Nodup ∧
    dim_diagnosis ehr = dim_diagnosis (ehr.filter (fun r => r.primary_diagnosis.isSome)) ∧
    (dim_diagnosis ehr).map (fun r => r.diagnosis_key) =
      List.range' 1 (dim_diagnosis ehr).length := by
  refine ⟨?_, ?_, ?_⟩
  · have heq : (dim_diagnosis ehr).map (fun r => (r.icd10_code, r.description)) =
        (pdUnique (ehr.filterMap (fun r => r.primary_diagnosis))).map
          (fun d => (d.icd10_code, d.description)) := by
      unfold dim_diagnosis
      rw [List.map_map]
      have h1 : ((fun r : DimDiagnosisRow => (r.icd10_code, r.description)) ∘
          (fun p : Nat × Diagnosis =>
            ({ icd10_code := p.2.icd10_code, description := p.2.description,
               diagnosis_key := p.1 + 1 } : DimDiagnosisRow))) =
          ((fun d : Diagnosis => (d.icd10_code, d.description)) ∘ Prod.snd) := rfl
      rw [h1, ← List.map_map, List.enum_map_snd]
    rw [heq]
    refine List.Nodup.map ?_ (nodup_pdUnique _)
    intro a b hab
    cases a; cases b
    simpa using hab
  · have hfm : (ehr.filter (fun r => r.primary_diagnosis.isSome)).filterMap
        (fun r => r.primary_diagnosis) = ehr.filterMap (fun r => r.primary_diagnosis) := by
      induction ehr with
      | nil => rfl
      | cons r rs ih =>
        cases hr : r.primary_diagnosis with
        | none => simp [List.filter_cons, List.filterMap_cons, hr, ih]
        | some d => simp [List.filter_cons, List.filterMap_cons, hr, ih]
    unfold dim_diagnosis
    rw [hfm]
  · have hlen : (dim_diagnosis ehr).length =
        (pdUnique (ehr.filterMap (fun r => r.primary_diagnosis))).length := by
      simp [dim_diagnosis]
    rw [hlen]
    unfold dim_diagnosis
    rw [List.map_map]
    have h1 : ((fun r : DimDiagnosisRow => r.diagnosis_key) ∘
        (fun p : Nat × Diagnosis =>
          ({ icd10_code := p.2.icd10_code, description := p.2.description,
             diagnosis_key := p.1 + 1 } : DimDiagnosisRow))) =
        (fun p : Nat × Diagnosis => p.1 + 1) := rfl
    rw [h1, enum_map_key]

/-- C9: the load phase is idempotent and state-independent: each of the six
tables is dropped and recreated from the in-memory table, so a second run
on the same in-memory tables (and any prior warehouse state) leaves
identical contents. -/
theorem warehouse_load_idempotent :
    (∀ (t : WarehouseTables) (w : WarehouseState),
      load_warehouse t (load_warehouse t w) = load_warehouse t w) ∧
    (∀ (t : WarehouseTables) (w w2 : WarehouseState),
      load_warehouse t w = load_warehouse t w2) ∧
    (∀ (t : WarehouseTables) (w : WarehouseState),
      (load_warehouse t w).dim_patient = some t.dim_patient ∧
      (load_warehouse t w).dim_date = some t.dim_date ∧
      (load_warehouse t w).dim_diagnosis = some t.dim_diagnosis ∧
      (load_warehouse t w).fact_encounters = some t.fact_encounters ∧
      (load_warehouse t w).fact_lab_tests = some t.fact_lab_tests ∧
      (load_warehouse t w).fact_appointments = some t.fact_appointments) :=
  ⟨fun _ _ => rfl, fun _ _ _ => rfl, fun _ _ => ⟨rfl, rfl, rfl, rfl, rfl, rfl⟩⟩

/-! ## Evaluations refuting the calendar-date uniqueness claims -/

/-- C4: evaluation at a failing input — two encounters on the same calendar
date at different times of day yield two `dim_date` rows, both with
`date_key` 20240305; the Date Dimension does not hold one row per calendar
date, and a `date_key` occurs in two rows. -/
theorem dim_date_duplicate_key_eval :
    (dim_date [encRow0800, encRow1430] [] []).length = 2 ∧
    (dim_date [encRow0800, encRow1430] [] []).map (fun r => r.date_key) =
      [20240305, 20240305] := by
  constructor <;> decide

/-- C6: evaluation at a failing input — in the same run, each encounter fact
row carries `date_key` 20240305, which matches two rows of the Date
Dimension, not exactly one. -/
theorem fact_date_key_matches_two_dim_rows_eval :
    (fact_encounters [encRow0800, encRow1430] (dim_patient [])).map
      (fun r => r.date_key) = [20240305, 20240305] ∧
    ((dim_date [encRow0800, encRow1430] [] []).filter
      (fun r => r.date_key = 20240305)).length = 2 := by
  constructor <;> decide

end NHSPipeline
